import Mathlib

/-!
Verification of `netlify/functions/upload.js` (Yellow Camera upload endpoint).

JavaScript strings are modelled as lists of natural-number code units
(`JSString`); byte buffers use the same representation.  Pure helpers of the
source file are translated directly; the external effects (Busboy parsing of
the request body, the Google Drive `files.create` call, and the clock) enter
the model as explicit parameters, with the Drive call in state-passing style
so that the sequence of issued requests is observable.
-/

/-- A JavaScript string (or byte buffer), as its list of code units. -/
abbrev JSString := List Nat

/-- Encode a Lean string literal as a `JSString` (ASCII code units). -/
def js (s : String) : JSString := s.data.map Char.toNat

/-- JS `x || d` for an optional string `x`: the empty string is falsy. -/
def jsOrS (v : Option JSString) (d : JSString) : JSString :=
  match v with
  | none => d
  | some s => if s = [] then d else s

/-- `String.prototype.toUpperCase` on one code unit (ASCII range). -/
def jsToUpperChar (n : Nat) : Nat := if 97 ≤ n ∧ n ≤ 122 then n - 32 else n

/-- `String.prototype.toUpperCase` (ASCII model). -/
def jsToUpper (s : JSString) : JSString := s.map jsToUpperChar

/-- Code unit of an ASCII decimal digit, as matched by regex `\d`. -/
def isDigitCode (n : Nat) : Bool := decide (48 ≤ n ∧ n ≤ 57)

/-- One token of the anchored regular expressions used by the classifier:
a literal code unit, a `\d` digit class, or a one-character alternative
such as `[HO]`. -/
inductive RegTok where
  | lit (n : Nat)
  | digit
  | oneOf (ns : List Nat)
deriving DecidableEq

/-- Matching of a full anchored token list against a string, with literal
tokens compared by exact equality (the source applies the uppercase-only
regexes to the uppercased filename). -/
def matchToksU : List RegTok → JSString → Bool
  | [], [] => true
  | RegTok.lit l :: ts, c :: cs => (c == l) && matchToksU ts cs
  | RegTok.digit :: ts, c :: cs => isDigitCode c && matchToksU ts cs
  | RegTok.oneOf ns :: ts, c :: cs => ns.contains c && matchToksU ts cs
  | _, _ => false

/-- Tokens of `/^GOPR\d{4}\.MP4$/`. -/
def patGOPR : List RegTok :=
  [.lit 71, .lit 79, .lit 80, .lit 82, .digit, .digit, .digit, .digit,
   .lit 46, .lit 77, .lit 80, .lit 52]

/-- Tokens of `/^G[HO]\d{2}\d{4}\.MP4$/`. -/
def patGHO : List RegTok :=
  [.lit 71, .oneOf [72, 79], .digit, .digit, .digit, .digit, .digit, .digit,
   .lit 46, .lit 77, .lit 80, .lit 52]

/-- `isLikelyGoProName` from the source: falsy input (missing or empty
string) is rejected, otherwise the uppercased filename is tested against the
two anchored patterns. -/
def isLikelyGoProName : Option JSString → Bool
  | none => false
  | some s =>
    if s = [] then false
    else
      let upper := jsToUpper s
      matchToksU patGOPR upper || matchToksU patGHO upper

/-- Case-insensitive matching of one regex token against a code unit, the
semantics of the spec's `/.../i` flag: a literal matches any unit whose
uppercase form equals it. -/
def ciTok : RegTok → Nat → Bool
  | .lit l, c => jsToUpperChar c == l
  | .digit, c => isDigitCode c
  | .oneOf ns, c => ns.contains (jsToUpperChar c)

/-- Case-insensitive matching of a full anchored token list. -/
def matchToksCI : List RegTok → JSString → Bool
  | [], [] => true
  | t :: ts, c :: cs => ciTok t c && matchToksCI ts cs
  | _, _ => false

/-- The spec predicate: the filename matches `/^GOPR\d{4}\.MP4$/i` or
`/^G[HO]\d{6}\.MP4$/i`. -/
def ciRegexGoPro (s : JSString) : Bool :=
  matchToksCI patGOPR s || matchToksCI patGHO s

lemma isDigitCode_jsToUpperChar (c : Nat) : isDigitCode (jsToUpperChar c) = isDigitCode c := by
  unfold jsToUpperChar isDigitCode
  split
  · next h => simp only [decide_eq_decide]; omega
  · rfl

lemma matchToksU_jsToUpper (ts : List RegTok) :
    ∀ s : JSString, matchToksU ts (jsToUpper s) = matchToksCI ts s := by
  induction ts with
  | nil =>
    intro s
    cases s with
    | nil => rfl
    | cons c cs => rfl
  | cons t ts ih =>
    intro s
    cases s with
    | nil => cases t <;> rfl
    | cons c cs =>
      cases t with
      | lit l =>
        simp only [jsToUpper, List.map_cons, matchToksU, matchToksCI, ciTok]
        have := ih cs
        simp only [jsToUpper] at this
        rw [this]
      | digit =>
        simp only [jsToUpper, List.map_cons, matchToksU, matchToksCI, ciTok,
          isDigitCode_jsToUpperChar]
        have := ih cs
        simp only [jsToUpper] at this
        rw [this]
      | oneOf ns =>
        simp only [jsToUpper, List.map_cons, matchToksU, matchToksCI, ciTok]
        have := ih cs
        simp only [jsToUpper] at this
        rw [this]

/-- C1: `isLikelyGoProName` returns true exactly on case-insensitive matches
of `GOPR` + four digits + `.MP4` or `G`, then `H` or `O`, then six digits and
`.MP4`; it returns false for missing or empty input and for every other
string, including the near-misses `GOPR123.MP4` and `GX010001.MP4`; being a
total Lean function, it never throws. -/
theorem c1_filename_classifier :
    (∀ s : Option JSString,
      isLikelyGoProName s =
        (match s with
         | none => false
         | some str => ciRegexGoPro str)) ∧
    isLikelyGoProName (some (js "GOPR0001.MP4")) = true ∧
    isLikelyGoProName (some (js "gh010001.mp4")) = true ∧
    isLikelyGoProName none = false ∧
    isLikelyGoProName (some []) = false ∧
    isLikelyGoProName (some (js "GOPR123.MP4")) = false ∧
    isLikelyGoProName (some (js "GX010001.MP4")) = false := by
  refine ⟨?_, by decide, by decide, rfl, by decide, by decide, by decide⟩
  intro s
  cases s with
  | none => rfl
  | some str =>
    by_cases h : str = []
    · subst h; decide
    · simp only [isLikelyGoProName, if_neg h, ciRegexGoPro,
        matchToksU_jsToUpper]

/-! ## Data model of the request handler -/

/-- One file part collected by the multipart decoder: Busboy's field name,
the part's filename and MIME type (absent or empty values are falsy in the
source), and the concatenated data chunks.  The source stores
`size: buffer.length` alongside; here the length of `buffer` is used
directly. -/
structure FilePart where
  fieldname : JSString
  filename : Option JSString
  mimeType : Option JSString
  buffer : JSString
deriving DecidableEq

/-- Result of `parseMultipart`: the field map (a JS object, modelled as a
lookup function with last-write-wins already applied) and the file list. -/
structure ParseResult where
  fields : JSString → Option JSString
  files : List FilePart

/-- The Netlify event: HTTP method, headers object, raw body and its
base64 flag. -/
structure Event where
  httpMethod : JSString
  headers : List (JSString × JSString)
  body : Option JSString
  isBase64Encoded : Bool

/-- JSON values, for response bodies produced by `JSON.stringify`. -/
inductive Json where
  | jbool (b : Bool)
  | jnum (n : Nat)
  | jstr (s : JSString)
  | jarr (xs : List Json)
  | jobj (kvs : List (JSString × Json))

/-- An HTTP response of the handler; `body = none` models the empty-string
body of the preflight branch, `body = some j` a `JSON.stringify`-ed value. -/
structure Response where
  statusCode : Nat
  headers : List (JSString × JSString)
  body : Option Json

/-- Property access on a JS object modelled as a key-value list. -/
def jsGet (m : List (JSString × JSString)) (k : JSString) : Option JSString :=
  (m.find? (fun kv => kv.1 == k)).map (·.2)

/-- `a.startsWith-style` prefix test on code-unit lists (second argument is
the candidate prefix). -/
def startsWithJs : JSString → JSString → Bool
  | _, [] => true
  | [], _ :: _ => false
  | c :: cs, p :: ps => (c == p) && startsWithJs cs ps

/-- `String.prototype.includes`: does `s` contain `pat` as a contiguous
substring? -/
def containsJs : JSString → JSString → Bool
  | [], pat => pat.isEmpty
  | c :: cs, pat => startsWithJs (c :: cs) pat || containsJs cs pat

/-- The content-type string computed by `parseMultipart`:
`headers['content-type'] || headers['Content-Type'] || ''`. -/
def contentTypeOf (headers : List (JSString × JSString)) : JSString :=
  jsOrS (jsGet headers (js "content-type"))
    (jsOrS (jsGet headers (js "Content-Type")) [])

/-- Rejection message of `parseMultipart`. -/
def unsupportedMsg : JSString :=
  js "Unsupported content type. Expected multipart/form-data."

/-- `parseMultipart` from the source.  The Busboy machinery (base64 body
reconstruction, boundary parsing, per-part chunk accumulation) is external
code, abstracted as the `busboy` parameter taking the raw body and its
base64 flag; the content-type guard before it is the source's own logic. -/
def parseMultipart (busboy : JSString × Bool → Except JSString ParseResult)
    (e : Event) : Except JSString ParseResult :=
  let contentType := contentTypeOf e.headers
  if containsJs contentType (js "multipart/form-data") then
    busboy (e.body.getD [], e.isBase64Encoded)
  else
    .error unsupportedMsg

/-! ## Storage client factory -/

/-- The three `process.env` values read by `getDriveClient`. -/
structure Env where
  GDRIVE_CLIENT_EMAIL : Option JSString
  GDRIVE_PRIVATE_KEY : Option JSString
  GDRIVE_FOLDER_ID : Option JSString

/-- The authenticated client handle: the credentials handed to
`google.auth.GoogleAuth` plus the destination folder. -/
structure DriveClient where
  client_email : JSString
  private_key : JSString
  folderId : JSString
deriving DecidableEq

/-- `privateKeyRaw.replace(/\\n/g, '\n')`: each two-unit sequence
backslash (92) + `n` (110) becomes one newline (10), scanning left to
right without overlap. -/
def replaceEscapes : JSString → JSString
  | [] => []
  | [c] => [c]
  | c :: d :: rest =>
    if c = 92 ∧ d = 110 then 10 :: replaceEscapes rest
    else c :: replaceEscapes (d :: rest)

/-- Does the string still contain a literal backslash-`n` escape? -/
def hasEscape : JSString → Bool
  | [] => false
  | [_] => false
  | c :: d :: rest => decide (c = 92 ∧ d = 110) || hasEscape (d :: rest)

/-- JS falsiness of an optional env string: absent or empty. -/
def falsyOpt (v : Option JSString) : Bool :=
  match v with
  | none => true
  | some s => s.isEmpty

/-- Error message of `getDriveClient`. -/
def missingEnvMsg : JSString :=
  js "Missing one or more env vars: GDRIVE_CLIENT_EMAIL, GDRIVE_PRIVATE_KEY, GDRIVE_FOLDER_ID"

/-- `getDriveClient` from the source: reject when any of the three values is
falsy, otherwise build the credentials with the unescaped private key.  The
`google.auth.GoogleAuth`/`google.drive` construction performs no I/O and is
represented by the returned record. -/
def getDriveClient (env : Env) : Except JSString DriveClient :=
  let privateKeyRaw := env.GDRIVE_PRIVATE_KEY.getD []
  if falsyOpt env.GDRIVE_CLIENT_EMAIL || privateKeyRaw.isEmpty ||
      falsyOpt env.GDRIVE_FOLDER_ID then
    .error missingEnvMsg
  else
    .ok { client_email := env.GDRIVE_CLIENT_EMAIL.getD []
          private_key := replaceEscapes privateKeyRaw
          folderId := env.GDRIVE_FOLDER_ID.getD [] }

/-! ## Request handler -/

/-- Is a code unit kept by `replace(/[^A-Za-z0-9_-]/g, '')`? -/
def validCodeChar (n : Nat) : Bool :=
  decide ((65 ≤ n ∧ n ≤ 90) ∨ (97 ≤ n ∧ n ≤ 122) ∨ (48 ≤ n ∧ n ≤ 57) ∨
    n = 95 ∨ n = 45)

/-- `cameraCode.replace(/[^A-Za-z0-9_-]/g, '')`: drop every unit outside
the class. -/
def sanitizeCameraCode (s : JSString) : JSString := s.filter validCodeChar

/-- One step of `nowIso.replace(/[:.]/g, '-')`: `:` (58) and `.` (46)
become `-` (45). -/
def slugChar (n : Nat) : Nat := if n = 58 ∨ n = 46 then 45 else n

/-- `nowIso.replace(/[:.]/g, '-')`. -/
def slugify (s : JSString) : JSString := s.map slugChar

/-- The per-request values the handler computes once, before the file loop,
from the field map and the single `new Date().toISOString()` reading. -/
structure ReqCtx where
  nowIso : JSString
  cameraId : JSString
  cameraCode : JSString
  location : JSString
  filmed : JSString
  nickname : JSString
  email : JSString
  shareLink : JSString
  safeCameraCode : JSString
  timestampSlug : JSString

/-- The block of `const` bindings after `getDriveClient` in the handler. -/
def mkReqCtx (fields : JSString → Option JSString) (nowIso : JSString) : ReqCtx :=
  let cameraCode := jsOrS (fields (js "camera_code")) (js "no-code")
  { nowIso := nowIso
    cameraId := jsOrS (fields (js "camera_id")) (js "unknown-camera")
    cameraCode := cameraCode
    location := jsOrS (fields (js "location")) (js "unknown-location")
    filmed := jsOrS (fields (js "date_filmed")) []
    nickname := jsOrS (fields (js "name")) []
    email := jsOrS (fields (js "email")) []
    shareLink := jsOrS (fields (js "share_link")) []
    safeCameraCode := sanitizeCameraCode cameraCode
    timestampSlug := slugify nowIso }

/-- `f.filename || 'clip.mp4'`. -/
def originalOf (f : FilePart) : JSString := jsOrS f.filename (js "clip.mp4")

/-- The camera-code component of the remote filename:
`safeCameraCode || 'NA'`. -/
def codeUsed (ctx : ReqCtx) : JSString :=
  if ctx.safeCameraCode.isEmpty then js "NA" else ctx.safeCameraCode

/-- `` `YC-${safeCameraCode || 'NA'}_${timestampSlug}_${original}` ``. -/
def newNameFor (ctx : ReqCtx) (original : JSString) : JSString :=
  js "YC-" ++ codeUsed ctx ++ js "_" ++ ctx.timestampSlug ++ js "_" ++ original

/-- The newline code unit used by `descriptionLines.join('\n')`. -/
def nl : JSString := [10]

/-- `Array.prototype.join('\n')`. -/
def joinLines : List JSString → JSString
  | [] => []
  | [l] => l
  | l :: ls => l ++ nl ++ joinLines ls

/-- The `descriptionLines` array with its `.filter(Boolean)` applied:
conditional entries are the empty string when their field is empty, and
empty entries are dropped. -/
def descriptionFor (ctx : ReqCtx) (original : JSString) (verified : Bool) : JSString :=
  joinLines (([
    js "Yellow Camera Project raw clip",
    js "Original filename: " ++ original,
    js "Camera ID: " ++ ctx.cameraId,
    js "Camera code: " ++ ctx.cameraCode,
    js "Location: " ++ ctx.location,
    if ctx.filmed.isEmpty then [] else js "Date filmed: " ++ ctx.filmed,
    if ctx.nickname.isEmpty then [] else js "Person: " ++ ctx.nickname,
    if ctx.email.isEmpty then [] else js "Contact: " ++ ctx.email,
    if ctx.shareLink.isEmpty then [] else js "Share link: " ++ ctx.shareLink,
    js "Upload time: " ++ ctx.nowIso,
    js "Verified Yellow Camera filename pattern: " ++
      (if verified then js "yes" else js "no")
  ]).filter (fun l => !l.isEmpty))

/-- The argument of one `drive.files.create` call: the file metadata
(`name`, `parents`, `description`) and the media (MIME type and bytes). -/
structure DriveRequest where
  name : JSString
  parents : List JSString
  description : JSString
  mimeType : JSString
  media : JSString
deriving DecidableEq

/-- The `result.data` fields the handler reads back from a successful
`drive.files.create` call. -/
structure DriveResult where
  id : JSString
  name : JSString
deriving DecidableEq

/-- The request built for one file part inside the loop. -/
def mkDriveRequest (ctx : ReqCtx) (folderId : JSString) (f : FilePart) :
    DriveRequest :=
  let original := originalOf f
  let verified := isLikelyGoProName (some original)
  { name := newNameFor ctx original
    parents := [folderId]
    description := descriptionFor ctx original verified
    mimeType := jsOrS f.mimeType (js "video/mp4")
    media := f.buffer }

/-- One entry pushed onto `uploads`. -/
structure UploadEntry where
  id : JSString
  name : JSString
  originalName : JSString
  verified : Bool
  sizeBytes : Nat
deriving DecidableEq

/-- JSON form of an `UploadEntry`. -/
def entryJson (u : UploadEntry) : Json :=
  .jobj [(js "id", .jstr u.id), (js "name", .jstr u.name),
         (js "originalName", .jstr u.originalName),
         (js "verified", .jbool u.verified),
         (js "sizeBytes", .jnum u.sizeBytes)]

/-- The `for (const f of files)` loop.  The Drive call is the
state-passing parameter `dc`, so the world state `σ` records its effects;
the loop stops at the first failed call, and on success appends one
`UploadEntry` per file, in input order. -/
def processFiles {σ : Type} (dc : σ → DriveRequest → σ × Except JSString DriveResult)
    (ctx : ReqCtx) (folderId : JSString) :
    σ → List FilePart → σ × Except JSString (List UploadEntry)
  | s, [] => (s, .ok [])
  | s, f :: rest =>
    let req := mkDriveRequest ctx folderId f
    match dc s req with
    | (s1, .error e) => (s1, .error e)
    | (s1, .ok r) =>
      match processFiles dc ctx folderId s1 rest with
      | (s2, .error e) => (s2, .error e)
      | (s2, .ok us) =>
        (s2, .ok ({ id := r.id, name := r.name
                    originalName := originalOf f
                    verified := isLikelyGoProName (some (originalOf f))
                    sizeBytes := f.buffer.length } :: us))

/-- The 204 preflight response. -/
def corsPreflight : Response :=
  { statusCode := 204
    headers := [(js "Access-Control-Allow-Origin", js "*"),
                (js "Access-Control-Allow-Methods", js "POST, OPTIONS"),
                (js "Access-Control-Allow-Headers", js "Content-Type")]
    body := none }

/-- The 405 response. -/
def methodNotAllowed : Response :=
  { statusCode := 405
    headers := [(js "Content-Type", js "application/json")]
    body := some (.jobj [(js "ok", .jbool false),
                         (js "error", .jstr (js "Method Not Allowed"))]) }

/-- The 400 response for an upload with no file parts. -/
def noFilesResponse : Response :=
  { statusCode := 400
    headers := [(js "Content-Type", js "application/json")]
    body := some (.jobj [(js "ok", .jbool false),
                         (js "error", .jstr (js "No video files found in upload."))]) }

/-- The fixed success message. -/
def successMessage : JSString :=
  js "Upload complete. Your Yellow Camera clip has been saved. You can now pass the camera on."

/-- The 200 response. -/
def okResponse (uploads : List UploadEntry) : Response :=
  { statusCode := 200
    headers := [(js "Content-Type", js "application/json"),
                (js "Access-Control-Allow-Origin", js "*")]
    body := some (.jobj [(js "ok", .jbool true),
                         (js "message", .jstr successMessage),
                         (js "uploadedCount", .jnum uploads.length),
                         (js "uploads", .jarr (uploads.map entryJson))]) }

/-- The catch-all 500 response: `err.message || 'Unexpected error during
upload.'`. -/
def errorResponse (e : JSString) : Response :=
  { statusCode := 500
    headers := [(js "Content-Type", js "application/json"),
                (js "Access-Control-Allow-Origin", js "*")]
    body := some (.jobj [(js "ok", .jbool false),
                         (js "error", .jstr
                           (if e.isEmpty then js "Unexpected error during upload."
                            else e))]) }

/-- The exported handler: method dispatch, multipart decode, empty-file
check, client build, per-file loop, final response; every error of the
`try` block becomes a 500 via the `catch`. -/
def handler {σ : Type} (busboy : JSString × Bool → Except JSString ParseResult)
    (env : Env) (nowIso : JSString)
    (dc : σ → DriveRequest → σ × Except JSString DriveResult)
    (s0 : σ) (event : Event) : σ × Response :=
  if event.httpMethod = js "OPTIONS" then (s0, corsPreflight)
  else if event.httpMethod ≠ js "POST" then (s0, methodNotAllowed)
  else
    match parseMultipart busboy event with
    | .error e => (s0, errorResponse e)
    | .ok pr =>
      if pr.files.isEmpty then (s0, noFilesResponse)
      else
        match getDriveClient env with
        | .error e => (s0, errorResponse e)
        | .ok client =>
          let ctx := mkReqCtx pr.fields nowIso
          match processFiles dc ctx client.folderId s0 pr.files with
          | (s1, .error e) => (s1, errorResponse e)
          | (s1, .ok uploads) => (s1, okResponse uploads)

/-! ## Concrete fixtures used to exercise the model -/

/-- A field map with no entries at all. -/
def emptyFields : JSString → Option JSString := fun _ => none

/-- Headers of a well-formed multipart request. -/
def mpHeaders : List (JSString × JSString) :=
  [(js "content-type", js "multipart/form-data; boundary=----x")]

/-- A multipart POST event (the body bytes themselves are consumed only by
the Busboy oracle and are irrelevant here). -/
def postEvent : Event :=
  { httpMethod := js "POST", headers := mpHeaders, body := some []
    isBase64Encoded := false }

/-- A complete environment. -/
def envFix : Env :=
  { GDRIVE_CLIENT_EMAIL := some (js "svc@example.com")
    GDRIVE_PRIVATE_KEY := some (js "KEY")
    GDRIVE_FOLDER_ID := some (js "folder1") }

/-- A fixed clock reading. -/
def nowFix : JSString := js "2026-10-11T08:30:00.000Z"

/-- A Busboy oracle returning a fixed parse result. -/
def busboyOf (pr : ParseResult) : JSString × Bool → Except JSString ParseResult :=
  fun _ => .ok pr

/-- A storage backend that accepts everything and echoes the requested
name, so the chosen remote filename is observable in the response. -/
def echoDC : Unit → DriveRequest → Unit × Except JSString DriveResult :=
  fun _ r => ((), .ok { id := js "file-id", name := r.name })

/-- Wrap a stateless backend behaviour so the state records the list of
requests actually issued, in order. -/
def logDC (b : DriveRequest → Except JSString DriveResult) :
    List DriveRequest → DriveRequest → List DriveRequest × Except JSString DriveResult :=
  fun log r => (log ++ [r], b r)

/-- Wrap a stateful but always-successful backend behaviour. -/
def okDC {σ : Type} (g : σ → DriveRequest → σ × DriveResult) :
    σ → DriveRequest → σ × Except JSString DriveResult :=
  fun s r => ((g s r).1, .ok (g s r).2)

/-! ## C8: method dispatch -/

/-- C8: an OPTIONS request gets a 204 with empty body and the three CORS
headers; a request that is neither OPTIONS nor POST gets a 405 with body
`{ok: false, error: "Method Not Allowed"}`; in both cases the response is
produced without consulting the body parser, the environment or the
storage backend (all of which are arbitrary here). -/
theorem c8_method_dispatch {σ : Type}
    (busboy : JSString × Bool → Except JSString ParseResult) (env : Env)
    (nowIso : JSString) (dc : σ → DriveRequest → σ × Except JSString DriveResult)
    (s0 : σ) (event : Event) :
    (event.httpMethod = js "OPTIONS" →
      handler busboy env nowIso dc s0 event =
        (s0, { statusCode := 204
               headers := [(js "Access-Control-Allow-Origin", js "*"),
                           (js "Access-Control-Allow-Methods", js "POST, OPTIONS"),
                           (js "Access-Control-Allow-Headers", js "Content-Type")]
               body := none })) ∧
    (event.httpMethod ≠ js "OPTIONS" → event.httpMethod ≠ js "POST" →
      handler busboy env nowIso dc s0 event =
        (s0, { statusCode := 405
               headers := [(js "Content-Type", js "application/json")]
               body := some (.jobj [(js "ok", .jbool false),
                 (js "error", .jstr (js "Method Not Allowed"))]) })) := by
  constructor
  · intro h
    unfold handler
    rw [if_pos h]
    rfl
  · intro h1 h2
    unfold handler
    rw [if_neg h1, if_pos h2]
    rfl

/-- Witness for C8 at a concrete OPTIONS request and a concrete GET
request. -/
theorem c8_method_dispatch_witness :
    handler (busboyOf ⟨emptyFields, []⟩) envFix nowFix echoDC ()
        { httpMethod := js "OPTIONS", headers := [], body := none
          isBase64Encoded := false } =
      ((), { statusCode := 204
             headers := [(js "Access-Control-Allow-Origin", js "*"),
                         (js "Access-Control-Allow-Methods", js "POST, OPTIONS"),
                         (js "Access-Control-Allow-Headers", js "Content-Type")]
             body := none }) ∧
    handler (busboyOf ⟨emptyFields, []⟩) envFix nowFix echoDC ()
        { httpMethod := js "GET", headers := [], body := none
          isBase64Encoded := false } =
      ((), { statusCode := 405
             headers := [(js "Content-Type", js "application/json")]
             body := some (.jobj [(js "ok", .jbool false),
               (js "error", .jstr (js "Method Not Allowed"))]) }) :=
  ⟨(c8_method_dispatch _ _ _ _ _ _).1 rfl,
   (c8_method_dispatch _ _ _ _ _ _).2 (by decide) (by decide)⟩

/-! ## C4: empty file list -/

/-- C4: a POST whose multipart body decodes successfully but contains zero
file parts is answered with HTTP 400 and the exact body
`{ok: false, error: "No video files found in upload."}`, whatever non-file
fields are present. -/
theorem c4_no_files_is_400 {σ : Type}
    (busboy : JSString × Bool → Except JSString ParseResult) (env : Env)
    (nowIso : JSString) (dc : σ → DriveRequest → σ × Except JSString DriveResult)
    (s0 : σ) (event : Event) (fields : JSString → Option JSString)
    (hm : event.httpMethod = js "POST")
    (hct : containsJs (contentTypeOf event.headers) (js "multipart/form-data") = true)
    (hb : busboy (event.body.getD [], event.isBase64Encoded) = .ok ⟨fields, []⟩) :
    handler busboy env nowIso dc s0 event =
      (s0, { statusCode := 400
             headers := [(js "Content-Type", js "application/json")]
             body := some (.jobj [(js "ok", .jbool false),
               (js "error", .jstr (js "No video files found in upload."))]) }) := by
  unfold handler parseMultipart
  rw [hm]
  rw [if_neg (by decide : ¬ (js "POST" = js "OPTIONS"))]
  rw [if_neg (by simp : ¬ (js "POST" ≠ js "POST"))]
  simp only [hct, if_true, hb]
  rfl

/-! ## The upload loop on an always-successful backend -/

lemma processFiles_okDC {σ : Type} (g : σ → DriveRequest → σ × DriveResult)
    (ctx : ReqCtx) (fid : JSString) :
    ∀ (files : List FilePart) (s : σ),
      ∃ s2 us, processFiles (okDC g) ctx fid s files = (s2, Except.ok us) ∧
        us.length = files.length ∧
        ∀ i (h1 : i < us.length) (h2 : i < files.length),
          (us.get ⟨i, h1⟩).originalName = originalOf (files.get ⟨i, h2⟩) ∧
          (us.get ⟨i, h1⟩).verified =
            isLikelyGoProName (some (originalOf (files.get ⟨i, h2⟩))) ∧
          (us.get ⟨i, h1⟩).sizeBytes = (files.get ⟨i, h2⟩).buffer.length := by
  intro files
  induction files with
  | nil =>
    intro s
    exact ⟨s, [], rfl, rfl, fun i h1 _ => absurd h1 (Nat.not_lt_zero i)⟩
  | cons f rest ih =>
    intro s
    obtain ⟨s2, us, heq, hlen, hprops⟩ := ih (g s (mkDriveRequest ctx fid f)).1
    refine ⟨s2,
      { id := (g s (mkDriveRequest ctx fid f)).2.id
        name := (g s (mkDriveRequest ctx fid f)).2.name
        originalName := originalOf f
        verified := isLikelyGoProName (some (originalOf f))
        sizeBytes := f.buffer.length } :: us, ?_, by simp [hlen], ?_⟩
    · show processFiles (okDC g) ctx fid s (f :: rest) = _
      simp only [processFiles, okDC]
      rw [heq]
    · intro i h1 h2
      cases i with
      | zero => exact ⟨rfl, rfl, rfl⟩
      | succ j =>
        simp only [List.get_cons_succ]
        exact hprops j (Nat.lt_of_succ_lt_succ h1) (Nat.lt_of_succ_lt_succ h2)

/-! ## C5: all uploads succeed -/

/-- C5: a POST with `N ≥ 1` file parts, a well-formed multipart body, a
complete environment and a storage backend that accepts every request is
answered with HTTP 200; the body carries `ok: true`, `uploadedCount = N`
and an `uploads` array of length `N` aligned index-by-index with the input
file parts, each entry built from the entry's id, name, original name,
verification flag and byte size. -/
theorem c5_success_response {σ : Type}
    (busboy : JSString × Bool → Except JSString ParseResult) (env : Env)
    (nowIso : JSString) (g : σ → DriveRequest → σ × DriveResult) (s0 : σ)
    (event : Event) (fields : JSString → Option JSString)
    (files : List FilePart) (client : DriveClient)
    (hm : event.httpMethod = js "POST")
    (hct : containsJs (contentTypeOf event.headers) (js "multipart/form-data") = true)
    (hb : busboy (event.body.getD [], event.isBase64Encoded) = .ok ⟨fields, files⟩)
    (hne : files ≠ [])
    (hcl : getDriveClient env = .ok client) :
    ∃ (s2 : σ) (us : List UploadEntry), handler busboy env nowIso (okDC g) s0 event =
        (s2, { statusCode := 200
               headers := [(js "Content-Type", js "application/json"),
                           (js "Access-Control-Allow-Origin", js "*")]
               body := some (.jobj [(js "ok", .jbool true),
                 (js "message", .jstr successMessage),
                 (js "uploadedCount", .jnum us.length),
                 (js "uploads", .jarr (us.map entryJson))]) }) ∧
      us.length = files.length ∧
      ∀ i (h1 : i < us.length) (h2 : i < files.length),
        (us.get ⟨i, h1⟩).originalName = originalOf (files.get ⟨i, h2⟩) ∧
        (us.get ⟨i, h1⟩).verified =
          isLikelyGoProName (some (originalOf (files.get ⟨i, h2⟩))) ∧
        (us.get ⟨i, h1⟩).sizeBytes = (files.get ⟨i, h2⟩).buffer.length := by
  obtain ⟨s2, us, heq, hlen, hprops⟩ :=
    processFiles_okDC g (mkReqCtx fields nowIso) client.folderId files s0
  refine ⟨s2, us, ?_, hlen, hprops⟩
  unfold handler parseMultipart
  rw [hm]
  rw [if_neg (by decide : ¬ (js "POST" = js "OPTIONS"))]
  rw [if_neg (by simp : ¬ (js "POST" ≠ js "POST"))]
  simp only [hct, if_true, hb]
  obtain ⟨f, rest, rfl⟩ := List.exists_cons_of_ne_nil hne
  simp only [List.isEmpty_cons, if_false, hcl, heq]
  rfl

/-- Witness for C5 at two concrete file parts. -/
theorem c5_success_response_witness :
    ∃ (s2 : Unit) (us : List UploadEntry), handler (busboyOf ⟨emptyFields,
        [{ fieldname := js "file", filename := some (js "GOPR0007.MP4")
           mimeType := some (js "video/mp4"), buffer := [1, 2, 3] },
         { fieldname := js "file", filename := some (js "random.mov")
           mimeType := none, buffer := [9] }]⟩) envFix nowFix
        (okDC (fun (_ : Unit) r => ((), { id := js "id-1", name := r.name }))) ()
        postEvent =
      (s2, { statusCode := 200
             headers := [(js "Content-Type", js "application/json"),
                         (js "Access-Control-Allow-Origin", js "*")]
             body := some (.jobj [(js "ok", .jbool true),
               (js "message", .jstr successMessage),
               (js "uploadedCount", .jnum us.length),
               (js "uploads", .jarr (us.map entryJson))]) }) ∧
      us.length = 2 ∧
      ∀ i (h1 : i < us.length)
        (h2 : i < ([{ fieldname := js "file", filename := some (js "GOPR0007.MP4")
                      mimeType := some (js "video/mp4"), buffer := [1, 2, 3] },
                    { fieldname := js "file", filename := some (js "random.mov")
                      mimeType := none, buffer := [9] }] : List FilePart).length),
        (us.get ⟨i, h1⟩).originalName =
          originalOf (([{ fieldname := js "file", filename := some (js "GOPR0007.MP4")
                          mimeType := some (js "video/mp4"), buffer := [1, 2, 3] },
                        { fieldname := js "file", filename := some (js "random.mov")
                          mimeType := none, buffer := [9] }] : List FilePart).get ⟨i, h2⟩) := by
  obtain ⟨s2, us, heq, hlen, hprops⟩ :=
    c5_success_response (busboyOf ⟨emptyFields,
        [{ fieldname := js "file", filename := some (js "GOPR0007.MP4")
           mimeType := some (js "video/mp4"), buffer := [1, 2, 3] },
         { fieldname := js "file", filename := some (js "random.mov")
           mimeType := none, buffer := [9] }]⟩) envFix nowFix
      (fun (_ : Unit) r => ((), { id := js "id-1", name := r.name })) ()
      postEvent emptyFields
      [{ fieldname := js "file", filename := some (js "GOPR0007.MP4")
         mimeType := some (js "video/mp4"), buffer := [1, 2, 3] },
       { fieldname := js "file", filename := some (js "random.mov")
         mimeType := none, buffer := [9] }]
      { client_email := js "svc@example.com", private_key := js "KEY"
        folderId := js "folder1" }
      rfl (by decide) rfl (by decide) rfl
  exact ⟨s2, us, heq, hlen, fun i h1 h2 => (hprops i h1 h2).1⟩

/-! ## C6: a failing upload aborts the loop -/

/-- Is an `Except` value a success? -/
def exOk {ε α : Type} : Except ε α → Bool
  | .ok _ => true
  | .error _ => false

lemma processFiles_logDC_fail (b : DriveRequest → Except JSString DriveResult)
    (ctx : ReqCtx) (fid : JSString) (e : JSString) (bad : FilePart)
    (post : List FilePart)
    (hbad : b (mkDriveRequest ctx fid bad) = .error e) :
    ∀ (pre : List FilePart) (log : List DriveRequest),
      (∀ f ∈ pre, exOk (b (mkDriveRequest ctx fid f)) = true) →
      processFiles (logDC b) ctx fid log (pre ++ bad :: post) =
        (log ++ (pre ++ [bad]).map (mkDriveRequest ctx fid), .error e) := by
  intro pre
  induction pre with
  | nil =>
    intro log _
    simp only [List.nil_append, processFiles, logDC, hbad, List.map_cons,
      List.map_nil]
  | cons f pre ih =>
    intro log hok
    have hf : exOk (b (mkDriveRequest ctx fid f)) = true :=
      hok f (List.mem_cons_self f pre)
    obtain ⟨r, hr⟩ : ∃ r, b (mkDriveRequest ctx fid f) = .ok r := by
      cases hb : b (mkDriveRequest ctx fid f) with
      | error e2 => rw [hb] at hf; exact absurd hf (by simp [exOk])
      | ok r => exact ⟨r, rfl⟩
    have ihl := ih (log ++ [mkDriveRequest ctx fid f])
      (fun f2 h2 => hok f2 (List.mem_cons_of_mem f h2))
    simp only [List.cons_append, processFiles, logDC, hr, List.append_eq]
    rw [ihl]
    simp [List.append_assoc]

/-- C6: when the storage backend rejects one of the files, the handler
issues requests only for the files up to and including the first failing
one (the trailing files are never uploaded) and answers with a single
HTTP 500 whose JSON body has exactly the keys `ok` and `error` — no
`uploads` array of partial results. -/
theorem c6_fail_fast_500
    (busboy : JSString × Bool → Except JSString ParseResult) (env : Env)
    (nowIso : JSString) (b : DriveRequest → Except JSString DriveResult)
    (event : Event) (fields : JSString → Option JSString)
    (pre post : List FilePart) (bad : FilePart) (e : JSString)
    (client : DriveClient)
    (hm : event.httpMethod = js "POST")
    (hct : containsJs (contentTypeOf event.headers) (js "multipart/form-data") = true)
    (hb : busboy (event.body.getD [], event.isBase64Encoded) =
      .ok ⟨fields, pre ++ bad :: post⟩)
    (hcl : getDriveClient env = .ok client)
    (hok : ∀ f ∈ pre,
      exOk (b (mkDriveRequest (mkReqCtx fields nowIso) client.folderId f)) = true)
    (hbad : b (mkDriveRequest (mkReqCtx fields nowIso) client.folderId bad) =
      .error e) :
    handler busboy env nowIso (logDC b) [] event =
      ((pre ++ [bad]).map (mkDriveRequest (mkReqCtx fields nowIso) client.folderId),
       { statusCode := 500
         headers := [(js "Content-Type", js "application/json"),
                     (js "Access-Control-Allow-Origin", js "*")]
         body := some (.jobj [(js "ok", .jbool false),
           (js "error", .jstr (if e.isEmpty then js "Unexpected error during upload."
                               else e))]) }) ∧
    ∀ kvs, (handler busboy env nowIso (logDC b) [] event).2.body =
        some (.jobj kvs) →
      (kvs.map (·.1)).contains (js "uploads") = false := by
  have hloop := processFiles_logDC_fail b (mkReqCtx fields nowIso) client.folderId
    e bad post hbad pre [] hok
  have hmain : handler busboy env nowIso (logDC b) [] event =
      ((pre ++ [bad]).map (mkDriveRequest (mkReqCtx fields nowIso) client.folderId),
       errorResponse e) := by
    unfold handler parseMultipart
    rw [hm]
    rw [if_neg (by decide : ¬ (js "POST" = js "OPTIONS"))]
    rw [if_neg (by simp : ¬ (js "POST" ≠ js "POST"))]
    simp only [hct, if_true, hb]
    have hne : (pre ++ bad :: post) ≠ [] := by simp
    obtain ⟨f, rest, hcons⟩ := List.exists_cons_of_ne_nil hne
    rw [hcons] at hloop ⊢
    simp only [List.isEmpty_cons, if_false, hcl, hloop, List.nil_append]
    rfl
  constructor
  · rw [hmain]; rfl
  · intro kvs hkvs
    rw [hmain] at hkvs
    simp only [errorResponse, Option.some.injEq, Json.jobj.injEq] at hkvs
    rw [← hkvs]
    rfl

/-- Witness for C6: three files, the second rejected. -/
theorem c6_fail_fast_500_witness :
    (handler (busboyOf ⟨emptyFields,
        [{ fieldname := js "file", filename := some (js "a.mp4")
           mimeType := none, buffer := [1] },
         { fieldname := js "file", filename := some (js "b.mp4")
           mimeType := none, buffer := [2] },
         { fieldname := js "file", filename := some (js "c.mp4")
           mimeType := none, buffer := [3] }]⟩) envFix nowFix
      (logDC (fun r =>
        if r.name = newNameFor (mkReqCtx emptyFields nowFix) (js "b.mp4")
        then .error (js "Drive rejected the file")
        else .ok { id := js "id", name := r.name })) [] postEvent =
      (([{ fieldname := js "file", filename := some (js "a.mp4")
           mimeType := none, buffer := [1] },
         { fieldname := js "file", filename := some (js "b.mp4")
           mimeType := none, buffer := [2] }] : List FilePart).map
          (mkDriveRequest (mkReqCtx emptyFields nowFix) (js "folder1")),
       { statusCode := 500
         headers := [(js "Content-Type", js "application/json"),
                     (js "Access-Control-Allow-Origin", js "*")]
         body := some (.jobj [(js "ok", .jbool false),
           (js "error", .jstr (js "Drive rejected the file"))]) })) := by
  have h := c6_fail_fast_500 (busboyOf ⟨emptyFields,
      [{ fieldname := js "file", filename := some (js "a.mp4")
         mimeType := none, buffer := [1] },
       { fieldname := js "file", filename := some (js "b.mp4")
         mimeType := none, buffer := [2] },
       { fieldname := js "file", filename := some (js "c.mp4")
         mimeType := none, buffer := [3] }]⟩) envFix nowFix
    (fun r =>
      if r.name = newNameFor (mkReqCtx emptyFields nowFix) (js "b.mp4")
      then .error (js "Drive rejected the file")
      else .ok { id := js "id", name := r.name })
    postEvent emptyFields
    [{ fieldname := js "file", filename := some (js "a.mp4")
       mimeType := none, buffer := [1] }]
    [{ fieldname := js "file", filename := some (js "c.mp4")
       mimeType := none, buffer := [3] }]
    { fieldname := js "file", filename := some (js "b.mp4")
      mimeType := none, buffer := [2] }
    (js "Drive rejected the file")
    { client_email := js "svc@example.com", private_key := js "KEY"
      folderId := js "folder1" }
    rfl (by decide) rfl rfl (by decide) rfl
  rw [h.1]
  rfl

/-! ## Requests issued by the loop -/

lemma processFiles_logDC_mem (b : DriveRequest → Except JSString DriveResult)
    (ctx : ReqCtx) (fid : JSString) :
    ∀ (files : List FilePart) (log : List DriveRequest) (r : DriveRequest),
      r ∈ (processFiles (logDC b) ctx fid log files).1 →
      r ∈ log ∨ ∃ f ∈ files, r = mkDriveRequest ctx fid f := by
  intro files
  induction files with
  | nil => intro log r hr; exact Or.inl hr
  | cons f rest ih =>
    intro log r hr
    have hstep :
        r ∈ log ++ [mkDriveRequest ctx fid f] ∨
          ∃ f2 ∈ rest, r = mkDriveRequest ctx fid f2 := by
      cases hb : b (mkDriveRequest ctx fid f) with
      | error e =>
        simp only [processFiles, logDC, hb] at hr
        exact Or.inl hr
      | ok r2 =>
        simp only [processFiles, logDC, hb] at hr
        rcases hp : processFiles (logDC b) ctx fid
            (log ++ [mkDriveRequest ctx fid f]) rest with ⟨s2, res2⟩
        have hs2 : r ∈ s2 := by
          cases res2 <;> simp only [hp] at hr <;> exact hr
        have := ih (log ++ [mkDriveRequest ctx fid f]) r (by rw [hp]; exact hs2)
        exact this
    rcases hstep with hmem | ⟨f2, hf2, hr2⟩
    · rcases List.mem_append.mp hmem with h | h
      · exact Or.inl h
      · exact Or.inr ⟨f, List.mem_cons_self f rest, by
          simpa using h⟩
    · exact Or.inr ⟨f2, List.mem_cons_of_mem f hf2, hr2⟩

lemma startsWithJs_append_self : ∀ (p t : JSString), startsWithJs (p ++ t) p = true := by
  intro p
  induction p with
  | nil => intro t; cases t <;> rfl
  | cons c cs ih =>
    intro t
    simp only [List.cons_append, startsWithJs, List.append_eq, beq_self_eq_true,
      Bool.true_and, ih]

lemma containsJs_of_startsWithJs (s p : JSString) (h : startsWithJs s p = true) :
    containsJs s p = true := by
  cases s with
  | nil =>
    cases p with
    | nil => rfl
    | cons c cs => exact absurd h (by simp [startsWithJs])
  | cons c cs => simp only [containsJs, h, Bool.true_or]

lemma containsJs_append_right (p : JSString) :
    ∀ (a b : JSString), containsJs b p = true → containsJs (a ++ b) p = true := by
  intro a
  induction a with
  | nil => intro b h; simpa using h
  | cons c cs ih =>
    intro b h
    simp only [List.cons_append, containsJs, Bool.or_eq_true]
    exact Or.inr (ih b h)

lemma containsJs_joinLines_of_mem :
    ∀ (ls : List JSString) (l : JSString), l ∈ ls →
      containsJs (joinLines ls) l = true := by
  intro ls
  induction ls with
  | nil => intro l hl; cases hl
  | cons x rest ih =>
    intro l hl
    rcases List.mem_cons.mp hl with hx | hrest
    · subst hx
      cases rest with
      | nil =>
        have := startsWithJs_append_self l []
        rw [List.append_nil] at this
        exact containsJs_of_startsWithJs _ _ this
      | cons y t =>
        have : joinLines (l :: y :: t) = l ++ (nl ++ joinLines (y :: t)) := by
          simp [joinLines, List.append_assoc]
        rw [this]
        exact containsJs_of_startsWithJs _ _ (startsWithJs_append_self l _)
    · have hne : rest ≠ [] := List.ne_nil_of_mem hrest
      obtain ⟨y, t, rfl⟩ := List.exists_cons_of_ne_nil hne
      have : joinLines (x :: y :: t) = (x ++ nl) ++ joinLines (y :: t) := by
        simp [joinLines, List.append_assoc]
      rw [this]
      exact containsJs_append_right _ _ _ (ih l hrest)

lemma isEmpty_append_left_ne (a b : JSString) (h : a ≠ []) :
    (a ++ b).isEmpty = false := by
  cases a with
  | nil => exact absurd rfl h
  | cons c cs => rfl

/-- The `name` values of the `uploads` array of a JSON response body. -/
def uploadNamesOf (r : Response) : List JSString :=
  match r.body with
  | some (Json.jobj kvs) =>
    match (kvs.find? (fun kv => kv.1 == js "uploads")).map (·.2) with
    | some (Json.jarr xs) =>
      xs.filterMap (fun j =>
        match j with
        | Json.jobj fs =>
          match (fs.find? (fun kv => kv.1 == js "name")).map (·.2) with
          | some (Json.jstr s) => some s
          | _ => none
        | _ => none)
    | _ => []
  | _ => []

/-- On the logging backend, the state component of the handler's result is
exactly the state the upload loop produced, whether it succeeded or
failed. -/
lemma handler_logDC_state
    (busboy : JSString × Bool → Except JSString ParseResult) (env : Env)
    (nowIso : JSString) (b : DriveRequest → Except JSString DriveResult)
    (event : Event) (fields : JSString → Option JSString)
    (files : List FilePart) (client : DriveClient)
    (hm : event.httpMethod = js "POST")
    (hct : containsJs (contentTypeOf event.headers) (js "multipart/form-data") = true)
    (hb : busboy (event.body.getD [], event.isBase64Encoded) = .ok ⟨fields, files⟩)
    (hne : files ≠ [])
    (hcl : getDriveClient env = .ok client) :
    (handler busboy env nowIso (logDC b) [] event).1 =
      (processFiles (logDC b) (mkReqCtx fields nowIso) client.folderId [] files).1 := by
  unfold handler parseMultipart
  rw [hm]
  rw [if_neg (by decide : ¬ (js "POST" = js "OPTIONS"))]
  rw [if_neg (by simp : ¬ (js "POST" ≠ js "POST"))]
  simp only [hct, if_true, hb]
  obtain ⟨f, rest, rfl⟩ := List.exists_cons_of_ne_nil hne
  simp only [List.isEmpty_cons, if_false, hcl]
  rcases hp : processFiles (logDC b) (mkReqCtx fields nowIso) client.folderId
      [] (f :: rest) with ⟨s2, res2⟩
  cases res2 <;> rfl

/-! ## C2: missing camera_code field -/

/-- C2 counterexample: a POST with no `camera_code` field and one file
`random.mov`, against a healthy backend that stores files under the
requested name, produces one upload whose remote name is
`YC-no-code_<slug>_random.mov` — it does not begin with `YC-NA_`. -/
theorem c2_counterexample_no_code :
    uploadNamesOf (handler (busboyOf ⟨emptyFields,
        [{ fieldname := js "file", filename := some (js "random.mov")
           mimeType := some (js "video/quicktime"), buffer := [0, 1] }]⟩)
        envFix nowFix echoDC () postEvent).2 =
      [js "YC-no-code_2026-10-11T08-30-00-000Z_random.mov"] ∧
    startsWithJs (js "YC-no-code_2026-10-11T08-30-00-000Z_random.mov")
      (js "YC-NA_") = false := by
  constructor
  · rfl
  · decide

/-- C2 amended: when the multipart body has no `camera_code` field, the
camera code defaults to the literal `no-code` (not `NA`), so every request
issued to the storage backend carries a remote filename beginning with
`YC-no-code_`. -/
theorem c2_amended_no_code_name
    (busboy : JSString × Bool → Except JSString ParseResult) (env : Env)
    (nowIso : JSString) (b : DriveRequest → Except JSString DriveResult)
    (event : Event) (fields : JSString → Option JSString)
    (files : List FilePart) (client : DriveClient)
    (hm : event.httpMethod = js "POST")
    (hct : containsJs (contentTypeOf event.headers) (js "multipart/form-data") = true)
    (hb : busboy (event.body.getD [], event.isBase64Encoded) = .ok ⟨fields, files⟩)
    (hne : files ≠ [])
    (hcl : getDriveClient env = .ok client)
    (hcode : fields (js "camera_code") = none) :
    ∀ r ∈ (handler busboy env nowIso (logDC b) [] event).1,
      startsWithJs r.name (js "YC-no-code_") = true := by
  intro r hr
  rw [handler_logDC_state busboy env nowIso b event fields files client
    hm hct hb hne hcl] at hr
  rcases processFiles_logDC_mem b (mkReqCtx fields nowIso) client.folderId
      files [] r hr with h | ⟨f, _, rfl⟩
  · cases h
  · show startsWithJs (newNameFor (mkReqCtx fields nowIso) (originalOf f))
      (js "YC-no-code_") = true
    have hcu : codeUsed (mkReqCtx fields nowIso) = js "no-code" := by
      simp only [codeUsed, mkReqCtx, hcode, jsOrS]
      decide
    unfold newNameFor
    rw [hcu]
    simp only [List.append_assoc]
    exact startsWithJs_append_self (js "YC-no-code_")
      ((mkReqCtx fields nowIso).timestampSlug ++ (js "_" ++ originalOf f))

set_option maxRecDepth 8192 in
/-- Witness for C2 amended, at the counterexample's input: the one request
the handler issues there has remote name prefix `YC-no-code_`. -/
theorem c2_amended_no_code_name_witness :
    startsWithJs (mkDriveRequest (mkReqCtx emptyFields nowFix) (js "folder1")
      { fieldname := js "file", filename := some (js "random.mov")
        mimeType := some (js "video/quicktime"), buffer := [0, 1] }).name
      (js "YC-no-code_") = true :=
  c2_amended_no_code_name (busboyOf ⟨emptyFields,
      [{ fieldname := js "file", filename := some (js "random.mov")
         mimeType := some (js "video/quicktime"), buffer := [0, 1] }]⟩)
    envFix nowFix (fun r => .ok { id := js "id", name := r.name }) postEvent
    emptyFields
    [{ fieldname := js "file", filename := some (js "random.mov")
       mimeType := some (js "video/quicktime"), buffer := [0, 1] }]
    { client_email := js "svc@example.com", private_key := js "KEY"
      folderId := js "folder1" }
    rfl (by decide) rfl (by decide) rfl rfl
    (mkDriveRequest (mkReqCtx emptyFields nowFix) (js "folder1")
      { fieldname := js "file", filename := some (js "random.mov")
        mimeType := some (js "video/quicktime"), buffer := [0, 1] })
    (by decide)

/-! ## C10: one timestamp per request -/

lemma containsJs_descriptionFor_uploadTime (ctx : ReqCtx) (original : JSString)
    (verified : Bool) :
    containsJs (descriptionFor ctx original verified)
      (js "Upload time: " ++ ctx.nowIso) = true := by
  apply containsJs_joinLines_of_mem
  apply List.mem_filter.mpr
  refine ⟨?_, ?_⟩
  · simp only [List.mem_cons]
    exact Or.inr (Or.inr (Or.inr (Or.inr (Or.inr (Or.inr (Or.inr (Or.inr
      (Or.inr (Or.inl trivial)))))))))
  · rw [isEmpty_append_left_ne _ _ (by decide)]
    rfl

/-- C10: the handler reads the clock once, before the per-file loop, so
within one POST every request issued to the storage backend carries the
same timestamp slug in its remote filename and the same `Upload time:`
line in its description — both derived from the single `nowIso` value of
the request. -/
theorem c10_single_timestamp
    (busboy : JSString × Bool → Except JSString ParseResult) (env : Env)
    (nowIso : JSString) (b : DriveRequest → Except JSString DriveResult)
    (event : Event) (fields : JSString → Option JSString)
    (files : List FilePart) (client : DriveClient)
    (hm : event.httpMethod = js "POST")
    (hct : containsJs (contentTypeOf event.headers) (js "multipart/form-data") = true)
    (hb : busboy (event.body.getD [], event.isBase64Encoded) = .ok ⟨fields, files⟩)
    (hne : files ≠ [])
    (hcl : getDriveClient env = .ok client) :
    ∀ r ∈ (handler busboy env nowIso (logDC b) [] event).1,
      (∃ orig, r.name =
        js "YC-" ++ codeUsed (mkReqCtx fields nowIso) ++ js "_" ++
          slugify nowIso ++ js "_" ++ orig) ∧
      containsJs r.description (js "Upload time: " ++ nowIso) = true := by
  intro r hr
  rw [handler_logDC_state busboy env nowIso b event fields files client
    hm hct hb hne hcl] at hr
  rcases processFiles_logDC_mem b (mkReqCtx fields nowIso) client.folderId
      files [] r hr with h | ⟨f, _, rfl⟩
  · cases h
  · exact ⟨⟨originalOf f, rfl⟩,
      containsJs_descriptionFor_uploadTime (mkReqCtx fields nowIso)
        (originalOf f) (isLikelyGoProName (some (originalOf f)))⟩

set_option maxRecDepth 8192 in
/-- Witness for C10: in a two-file POST, the second issued request carries
the shared timestamp slug in its name and the shared upload-time line. -/
theorem c10_single_timestamp_witness :
    (∃ orig, (mkDriveRequest (mkReqCtx emptyFields nowFix) (js "folder1")
        { fieldname := js "file", filename := some (js "b.mp4")
          mimeType := none, buffer := [2] }).name =
      js "YC-" ++ codeUsed (mkReqCtx emptyFields nowFix) ++ js "_" ++
        slugify nowFix ++ js "_" ++ orig) ∧
    containsJs (mkDriveRequest (mkReqCtx emptyFields nowFix) (js "folder1")
        { fieldname := js "file", filename := some (js "b.mp4")
          mimeType := none, buffer := [2] }).description
      (js "Upload time: " ++ nowFix) = true :=
  c10_single_timestamp (busboyOf ⟨emptyFields,
      [{ fieldname := js "file", filename := some (js "a.mp4")
         mimeType := none, buffer := [1] },
       { fieldname := js "file", filename := some (js "b.mp4")
         mimeType := none, buffer := [2] }]⟩)
    envFix nowFix (fun r => .ok { id := js "id", name := r.name }) postEvent
    emptyFields
    [{ fieldname := js "file", filename := some (js "a.mp4")
       mimeType := none, buffer := [1] },
     { fieldname := js "file", filename := some (js "b.mp4")
       mimeType := none, buffer := [2] }]
    { client_email := js "svc@example.com", private_key := js "KEY"
      folderId := js "folder1" }
    rfl (by decide) rfl (by decide) rfl
    (mkDriveRequest (mkReqCtx emptyFields nowFix) (js "folder1")
      { fieldname := js "file", filename := some (js "b.mp4")
        mimeType := none, buffer := [2] })
    (by decide)

/-! ## C3: camera-code sanitization -/

/-- C3 counterexample: a POST whose `camera_code` field is present but
empty produces a remote name with camera code `no-code`, not the `NA` the
claim requires for empty input. -/
theorem c3_counterexample_empty_code :
    uploadNamesOf (handler (busboyOf
        ⟨fun k => if k = js "camera_code" then some ([] : JSString) else none,
         [{ fieldname := js "file", filename := some (js "GOPR0007.MP4")
            mimeType := some (js "video/mp4"), buffer := [1] }]⟩)
        envFix nowFix echoDC () postEvent).2 =
      [js "YC-no-code_2026-10-11T08-30-00-000Z_GOPR0007.MP4"] ∧
    startsWithJs (js "YC-no-code_2026-10-11T08-30-00-000Z_GOPR0007.MP4")
      (js "YC-NA_") = false := by
  constructor
  · rfl
  · decide

/-- C3 amended: sanitization keeps exactly the units in `[A-Za-z0-9_-]`,
preserving their order, case and multiplicities, and when the field value
is nonempty but entirely invalid the remote filename falls back to the
literal `NA`; an empty field value, however, is falsy, so the default
camera code `no-code` (not `NA`) is used in the filename. -/
theorem c3_sanitization_amended :
    (∀ s : JSString,
      (sanitizeCameraCode s).Sublist s ∧
      (∀ c ∈ sanitizeCameraCode s, validCodeChar c = true) ∧
      (∀ c, validCodeChar c = true →
        (sanitizeCameraCode s).count c = s.count c) ∧
      (∀ c, validCodeChar c = false → (sanitizeCameraCode s).count c = 0)) ∧
    (∀ (fields : JSString → Option JSString) (nowIso v : JSString),
      fields (js "camera_code") = some v →
      ((v ≠ [] ∧ ∀ c ∈ v, validCodeChar c = false) →
        codeUsed (mkReqCtx fields nowIso) = js "NA") ∧
      (v = [] → codeUsed (mkReqCtx fields nowIso) = js "no-code")) := by
  constructor
  · intro s
    refine ⟨List.filter_sublist s, ?_, ?_, ?_⟩
    · intro c hc
      exact (List.mem_filter.mp hc).2
    · intro c hc
      exact List.count_filter hc
    · intro c hc
      refine List.count_eq_zero.mpr ?_
      intro hmem
      have := (List.mem_filter.mp hmem).2
      rw [hc] at this
      cases this
  · intro fields nowIso v hv
    constructor
    · rintro ⟨hne, hinv⟩
      have hsan : sanitizeCameraCode v = [] :=
        List.filter_eq_nil_iff.mpr (fun c hc => by rw [hinv c hc]; exact
          Bool.false_ne_true)
      simp only [codeUsed, mkReqCtx, hv, jsOrS, if_neg hne, hsan]
      rfl
    · intro hempty
      subst hempty
      simp only [codeUsed, mkReqCtx, hv, jsOrS, if_pos rfl]
      decide

/-- Witness for C3 amended: the spec's own example `"cam 07!"`, an
all-invalid code `"!!!"`, and the empty code. -/
theorem c3_sanitization_amended_witness :
    (sanitizeCameraCode (js "cam 07!")).Sublist (js "cam 07!") ∧
    codeUsed (mkReqCtx
      (fun k => if k = js "camera_code" then some (js "!!!") else none)
      nowFix) = js "NA" ∧
    codeUsed (mkReqCtx
      (fun k => if k = js "camera_code" then some ([] : JSString) else none)
      nowFix) = js "no-code" :=
  ⟨(c3_sanitization_amended.1 (js "cam 07!")).1,
   (c3_sanitization_amended.2
      (fun k => if k = js "camera_code" then some (js "!!!") else none)
      nowFix (js "!!!") (by decide)).1 ⟨by decide, by decide⟩,
   (c3_sanitization_amended.2
      (fun k => if k = js "camera_code" then some ([] : JSString) else none)
      nowFix [] (by decide)).2 rfl⟩

/-! ## C7: content-type guard -/

/-- `String.prototype.toLowerCase` on one code unit (ASCII range). -/
def jsLowerChar (n : Nat) : Nat := if 65 ≤ n ∧ n ≤ 90 then n + 32 else n

/-- `String.prototype.toLowerCase` (ASCII model). -/
def jsLower (s : JSString) : JSString := s.map jsLowerChar

/-- The spec's case-insensitive header lookup: the value of the first
entry whose lowercased key equals `k`. -/
def ciLookup (m : List (JSString × JSString)) (k : JSString) : Option JSString :=
  (m.find? (fun kv => jsLower kv.1 == k)).map (·.2)

/-- The spec's failure condition for the multipart decoder: the
content-type header, found case-insensitively, is missing or its value
does not contain `multipart/form-data`. -/
def unsupportedCT (m : List (JSString × JSString)) : Prop :=
  match ciLookup m (js "content-type") with
  | none => True
  | some v => containsJs v (js "multipart/form-data") = false

lemma filter_len_le_one_eq {α : Type} (l : List α) (p : α → Bool)
    (hu : (l.filter p).length ≤ 1) (a b : α) (ha : a ∈ l) (hpa : p a = true)
    (hb : b ∈ l) (hpb : p b = true) : a = b := by
  have haf : a ∈ l.filter p := List.mem_filter.mpr ⟨ha, hpa⟩
  have hbf : b ∈ l.filter p := List.mem_filter.mpr ⟨hb, hpb⟩
  cases hf : l.filter p with
  | nil => rw [hf] at haf; cases haf
  | cons x xs =>
    cases xs with
    | nil =>
      rw [hf] at haf hbf
      simp only [List.mem_singleton] at haf hbf
      rw [haf, hbf]
    | cons y ys =>
      rw [hf] at hu
      simp only [List.length_cons] at hu
      omega

lemma ciLookup_of_mem (headers : List (JSString × JSString))
    (hu : (headers.filter (fun kv => jsLower kv.1 == js "content-type")).length ≤ 1)
    (kv : JSString × JSString) (hmem : kv ∈ headers)
    (hP : (jsLower kv.1 == js "content-type") = true) :
    ciLookup headers (js "content-type") = some kv.2 := by
  have hsome : (headers.find? (fun kv => jsLower kv.1 == js "content-type")).isSome :=
    List.find?_isSome.mpr ⟨kv, hmem, hP⟩
  obtain ⟨kv0, hfind⟩ := Option.isSome_iff_exists.mp hsome
  have hp0 := List.find?_some
    (p := fun kv : JSString × JSString => jsLower kv.1 == js "content-type") hfind
  have hm0 : kv0 ∈ headers := List.mem_of_find?_eq_some hfind
  have hkv0 : kv0 = kv := filter_len_le_one_eq headers _ hu kv0 kv hm0 hp0 hmem hP
  unfold ciLookup
  rw [hfind, hkv0]
  rfl

lemma jsGet_entry {headers : List (JSString × JSString)} {k v : JSString}
    (h : jsGet headers k = some v) : (k, v) ∈ headers := by
  unfold jsGet at h
  obtain ⟨kv, hfind, hv⟩ := Option.map_eq_some'.mp h
  have hk : kv.1 = k := by
    have := List.find?_some hfind
    exact eq_of_beq this
  have := List.mem_of_find?_eq_some hfind
  rw [← hk, ← hv]
  exact this

/-- C7: whenever the content-type header — looked up case-insensitively,
assuming at most one header key spells it — is missing or its value does
not contain the substring `multipart/form-data`, `parseMultipart` rejects
with the fixed unsupported-content-type error, whatever the body parser
would have produced (it is never consulted). -/
theorem c7_content_type_guard (e : Event)
    (hu : (e.headers.filter
      (fun kv => jsLower kv.1 == js "content-type")).length ≤ 1)
    (hcond : unsupportedCT e.headers) :
    ∀ busboy : JSString × Bool → Except JSString ParseResult,
      parseMultipart busboy e =
        .error (js "Unsupported content type. Expected multipart/form-data.") := by
  intro busboy
  have hct : containsJs (contentTypeOf e.headers) (js "multipart/form-data") = false := by
    cases hA : jsGet e.headers (js "content-type") with
    | some v =>
      have hmemA : (js "content-type", v) ∈ e.headers := jsGet_entry hA
      have hPA : (jsLower (js "content-type") == js "content-type") = true := by decide
      have hciA := ciLookup_of_mem e.headers hu (js "content-type", v) hmemA hPA
      have hv : containsJs v (js "multipart/form-data") = false := by
        unfold unsupportedCT at hcond
        rw [hciA] at hcond
        exact hcond
      by_cases hve : v = []
      · subst hve
        have hB : jsGet e.headers (js "Content-Type") = none := by
          cases hB : jsGet e.headers (js "Content-Type") with
          | none => rfl
          | some w =>
            have hmemB : (js "Content-Type", w) ∈ e.headers := jsGet_entry hB
            have hPB : (jsLower (js "Content-Type") == js "content-type") = true := by
              decide
            have heq := filter_len_le_one_eq e.headers _ hu
              (js "content-type", ([] : JSString)) (js "Content-Type", w)
              hmemA hPA hmemB hPB
            have : js "content-type" = js "Content-Type" :=
              congrArg Prod.fst heq
            exact absurd this (by decide)
        unfold contentTypeOf
        rw [hA, hB]
        decide
      · unfold contentTypeOf
        rw [hA]
        simp only [jsOrS, if_neg hve]
        exact hv
    | none =>
      cases hB : jsGet e.headers (js "Content-Type") with
      | some w =>
        have hmemB : (js "Content-Type", w) ∈ e.headers := jsGet_entry hB
        have hPB : (jsLower (js "Content-Type") == js "content-type") = true := by
          decide
        have hciB := ciLookup_of_mem e.headers hu (js "Content-Type", w) hmemB hPB
        have hw : containsJs w (js "multipart/form-data") = false := by
          unfold unsupportedCT at hcond
          rw [hciB] at hcond
          exact hcond
        unfold contentTypeOf
        rw [hA, hB]
        by_cases hwe : w = []
        · subst hwe; decide
        · simp only [jsOrS, if_neg hwe]
          exact hw
      | none =>
        unfold contentTypeOf
        rw [hA, hB]
        decide
  simp only [parseMultipart, hct, Bool.false_eq_true, if_false]
  rfl

/-- Witness for C7: a single `CONTENT-TYPE: text/plain` header. -/
theorem c7_content_type_guard_witness :
    parseMultipart (busboyOf ⟨emptyFields, []⟩)
      { httpMethod := js "POST"
        headers := [(js "CONTENT-TYPE", js "text/plain")]
        body := some [], isBase64Encoded := false } =
      .error (js "Unsupported content type. Expected multipart/form-data.") :=
  c7_content_type_guard
    { httpMethod := js "POST"
      headers := [(js "CONTENT-TYPE", js "text/plain")]
      body := some [], isBase64Encoded := false }
    (by decide)
    ((by decide :
      containsJs (js "text/plain") (js "multipart/form-data") = false))
    (busboyOf ⟨emptyFields, []⟩)

/-! ## C9: configuration check and key unescaping -/

lemma falsyOpt_getD (v : Option JSString) : falsyOpt v = (v.getD []).isEmpty := by
  cases v <;> rfl

lemma replaceEscapes_head (d : Nat) (rest : JSString) :
    ∃ y ys, replaceEscapes (d :: rest) = y :: ys ∧ (y = d ∨ y = 10) := by
  cases rest with
  | nil => exact ⟨d, [], rfl, Or.inl rfl⟩
  | cons e2 t =>
    by_cases h : d = 92 ∧ e2 = 110
    · exact ⟨10, replaceEscapes t, by simp only [replaceEscapes, if_pos h],
        Or.inr rfl⟩
    · exact ⟨d, replaceEscapes (e2 :: t), by simp only [replaceEscapes, if_neg h],
        Or.inl rfl⟩

lemma hasEscape_replaceEscapes : ∀ s : JSString, hasEscape (replaceEscapes s) = false := by
  intro s
  induction s using replaceEscapes.induct with
  | case1 => rfl
  | case2 c => rfl
  | case3 c d rest h ih =>
    rw [show replaceEscapes (c :: d :: rest) = 10 :: replaceEscapes rest from by
      simp only [replaceEscapes, if_pos h]]
    cases hX : replaceEscapes rest with
    | nil => rfl
    | cons x xs =>
      rw [hX] at ih
      simp [hasEscape, ih]
  | case4 c d rest h ih =>
    rw [show replaceEscapes (c :: d :: rest) = c :: replaceEscapes (d :: rest) from by
      simp only [replaceEscapes, if_neg h]]
    obtain ⟨y, ys, hE, hy⟩ := replaceEscapes_head d rest
    rw [hE] at ih ⊢
    have hcy : ¬ (c = 92 ∧ y = 110) := by
      rcases hy with rfl | rfl
      · exact h
      · intro hc; omega
    simp only [hasEscape, decide_eq_false hcy, Bool.false_or]
    exact ih

/-- C9: with any of the three configuration values absent or empty the
client factory fails with the missing-configuration error, and a POST
carrying at least one file is then answered with HTTP 500 carrying that
message; with all three present the factory succeeds and the private key
it hands to the credentials is the raw key with every literal
backslash-`n` escape turned into a newline (none is left). -/
theorem c9_configuration :
    (∀ env : Env,
      (falsyOpt env.GDRIVE_CLIENT_EMAIL = true ∨
       falsyOpt env.GDRIVE_PRIVATE_KEY = true ∨
       falsyOpt env.GDRIVE_FOLDER_ID = true) →
      getDriveClient env = .error missingEnvMsg) ∧
    (∀ (σ : Type) (busboy : JSString × Bool → Except JSString ParseResult)
       (env : Env) (nowIso : JSString)
       (dc : σ → DriveRequest → σ × Except JSString DriveResult) (s0 : σ)
       (event : Event) (fields : JSString → Option JSString)
       (files : List FilePart),
      event.httpMethod = js "POST" →
      containsJs (contentTypeOf event.headers) (js "multipart/form-data") = true →
      busboy (event.body.getD [], event.isBase64Encoded) = .ok ⟨fields, files⟩ →
      files ≠ [] →
      (falsyOpt env.GDRIVE_CLIENT_EMAIL = true ∨
       falsyOpt env.GDRIVE_PRIVATE_KEY = true ∨
       falsyOpt env.GDRIVE_FOLDER_ID = true) →
      handler busboy env nowIso dc s0 event =
        (s0, { statusCode := 500
               headers := [(js "Content-Type", js "application/json"),
                           (js "Access-Control-Allow-Origin", js "*")]
               body := some (.jobj [(js "ok", .jbool false),
                 (js "error", .jstr missingEnvMsg)]) })) ∧
    (∀ (env : Env) (client : DriveClient),
      getDriveClient env = .ok client →
      client.private_key = replaceEscapes (env.GDRIVE_PRIVATE_KEY.getD []) ∧
      hasEscape client.private_key = false) := by
  have part1 : ∀ env : Env,
      (falsyOpt env.GDRIVE_CLIENT_EMAIL = true ∨
       falsyOpt env.GDRIVE_PRIVATE_KEY = true ∨
       falsyOpt env.GDRIVE_FOLDER_ID = true) →
      getDriveClient env = .error missingEnvMsg := by
    intro env h
    unfold getDriveClient
    rw [if_pos ?_]
    rcases h with h | h | h
    · rw [h]; simp
    · rw [falsyOpt_getD] at h; rw [h]; simp
    · rw [h]; simp
  refine ⟨part1, ?_, ?_⟩
  · intro σ busboy env nowIso dc s0 event fields files hm hct hb hne h
    unfold handler parseMultipart
    rw [hm]
    rw [if_neg (by decide : ¬ (js "POST" = js "OPTIONS"))]
    rw [if_neg (by simp : ¬ (js "POST" ≠ js "POST"))]
    simp only [hct, if_true, hb]
    obtain ⟨f, rest, rfl⟩ := List.exists_cons_of_ne_nil hne
    simp only [List.isEmpty_cons, if_false, part1 env h]
    rfl
  · intro env client h
    unfold getDriveClient at h
    have h' : (if (falsyOpt env.GDRIVE_CLIENT_EMAIL ||
          (env.GDRIVE_PRIVATE_KEY.getD []).isEmpty ||
          falsyOpt env.GDRIVE_FOLDER_ID) = true then
        (Except.error missingEnvMsg : Except JSString DriveClient)
      else Except.ok { client_email := env.GDRIVE_CLIENT_EMAIL.getD []
                       private_key := replaceEscapes (env.GDRIVE_PRIVATE_KEY.getD [])
                       folderId := env.GDRIVE_FOLDER_ID.getD [] }) =
        Except.ok client := h
    split at h'
    · simp at h'
    · injection h' with h2
      rw [← h2]
      exact ⟨rfl, hasEscape_replaceEscapes _⟩

/-- Witness for C9: an environment missing the e-mail, a POST against it,
and a complete environment whose key holds a literal escape. -/
theorem c9_configuration_witness :
    getDriveClient { GDRIVE_CLIENT_EMAIL := none
                     GDRIVE_PRIVATE_KEY := some (js "K")
                     GDRIVE_FOLDER_ID := some (js "f") } = .error missingEnvMsg ∧
    handler (busboyOf ⟨emptyFields,
        [{ fieldname := js "file", filename := some (js "a.mp4")
           mimeType := none, buffer := [1] }]⟩)
        { GDRIVE_CLIENT_EMAIL := none
          GDRIVE_PRIVATE_KEY := some (js "K")
          GDRIVE_FOLDER_ID := some (js "f") } nowFix echoDC () postEvent =
      ((), { statusCode := 500
             headers := [(js "Content-Type", js "application/json"),
                         (js "Access-Control-Allow-Origin", js "*")]
             body := some (.jobj [(js "ok", .jbool false),
               (js "error", .jstr missingEnvMsg)]) }) ∧
    ({ client_email := js "e", private_key := [65, 10, 66]
       folderId := js "f" } : DriveClient).private_key =
        replaceEscapes (js "A\\nB") ∧
    hasEscape ([65, 10, 66] : JSString) = false :=
  ⟨c9_configuration.1 _ (Or.inl rfl),
   c9_configuration.2.1 Unit _ _ nowFix echoDC () postEvent emptyFields
     [{ fieldname := js "file", filename := some (js "a.mp4")
        mimeType := none, buffer := [1] }]
     rfl (by decide) rfl (by decide) (Or.inl rfl),
   c9_configuration.2.2
     { GDRIVE_CLIENT_EMAIL := some (js "e")
       GDRIVE_PRIVATE_KEY := some (js "A\\nB")
       GDRIVE_FOLDER_ID := some (js "f") }
     { client_email := js "e", private_key := [65, 10, 66], folderId := js "f" }
     rfl⟩

/-- Witness for C4: a concrete POST with one text field and no files. -/
theorem c4_no_files_is_400_witness :
    handler (busboyOf ⟨fun k => if k = js "camera_id" then some (js "cam-1") else none, []⟩)
        envFix nowFix echoDC () postEvent =
      ((), { statusCode := 400
             headers := [(js "Content-Type", js "application/json")]
             body := some (.jobj [(js "ok", .jbool false),
               (js "error", .jstr (js "No video files found in upload."))]) }) :=
  c4_no_files_is_400 _ _ _ _ _ _ _ rfl (by decide) rfl
